import Mathlib

/-!
Shallow embedding of the liveness-oracle and teardown-executor functions of
the thunderdome repository (file `aws.go`, the five `is*Active` checks and the
four teardown calls). Each Go function performs exactly one provider API call
and then interprets the result; we embed the interpretation logic faithfully,
taking the outcome of the provider call (`Except AwsError <output>`) as an
explicit argument. Debug-level log lines are not observable behaviour and are
omitted; Warn-level log lines are modelled as a `warnings` component of the
result, since the spec treats them as a "warning signal".
-/

namespace Thunderdome

/--
Model of a Go error value returned by an AWS SDK call, refined just enough to
express the classification the code performs: `errors.As(err, &apiError)`
succeeds exactly when the error chain contains a `smithy.APIError`
(constructors `snsNotFound`, `sqsQueueDoesNotExist`, `otherAPI`), and the
subsequent type switch matches only the concrete type
`*snstypes.NotFoundException` (constructor `snsNotFound`).
`sqsQueueDoesNotExist` models `*sqstypes.QueueDoesNotExist`, the error the SQS
service returns for `GetQueueAttributes` on a nonexistent queue.
-/
inductive AwsError where
  | snsNotFound (m : String)
  | sqsQueueDoesNotExist (m : String)
  | otherAPI (code m : String)
  | nonAPI (m : String)
deriving DecidableEq, Repr

/--
The classification performed in `isSnsSubscriptionActive` and (verbatim, via
copy-paste) in `isSqsQueueActive`:
`errors.As(err, &apiError)` followed by `switch apiError.(type)` with the
single case `*snstypes.NotFoundException`.
-/
def isSnsNotFoundErr : AwsError → Bool
  | .snsNotFound _ => true
  | _ => false

/-- A non-nil Go error produced by `fmt.Errorf("<context>: %w", err)`. -/
inductive GoError where
  | wrap (context : String) (inner : AwsError)
deriving DecidableEq, Repr

/--
The observable result of one oracle call: the boolean verdict, the returned
error (`none` = nil), and the Warn-level log lines emitted during the call.
-/
structure OracleVerdict where
  active : Bool
  err : Option GoError
  warnings : List String
deriving DecidableEq, Repr

/-- `ecstypes.Task`, restricted to the fields the code reads. -/
structure ECSTask where
  taskArn : Option String
  lastStatus : Option String
deriving DecidableEq, Repr

/-- `ecs.DescribeTasksOutput`, restricted to the field the code reads. -/
structure DescribeTasksOutput where
  tasks : List ECSTask
deriving DecidableEq, Repr

/--
The `for _, ta := range out.Tasks` loop of `isTaskActive`: the first entry
whose `TaskArn` is non-nil and equal to the queried arn decides the verdict;
falling off the end of the loop returns `(false, nil)`.
-/
def isTaskActiveLoop (taskArn : String) : List ECSTask → OracleVerdict
  | [] => ⟨false, none, []⟩
  | ta :: rest =>
    match ta.taskArn with
    | some a =>
      if a = taskArn then
        match ta.lastStatus with
        | some st =>
          if st = "DEACTIVATING" || st = "STOPPING" || st = "DEPROVISIONING" ||
              st = "STOPPED" || st = "DELETED" then
            ⟨false, none, []⟩
          else
            ⟨true, none, []⟩
        | none => ⟨true, none, ["task found, but cannot read status"]⟩
      else isTaskActiveLoop taskArn rest
    | none => isTaskActiveLoop taskArn rest

/-- `isTaskActive`, with the `DescribeTasks` call outcome as argument. -/
def isTaskActive (taskArn : String)
    (query : Except AwsError DescribeTasksOutput) : OracleVerdict :=
  match query with
  | .error e => ⟨true, some (.wrap "describe tasks" e), []⟩
  | .ok out => isTaskActiveLoop taskArn out.tasks

/-- `ecstypes.TaskDefinitionStatusActive`. -/
def taskDefinitionStatusActive : String := "ACTIVE"

/-- `ecstypes.TaskDefinition`, restricted to the fields the code reads.
`Status` is a non-pointer string-valued enum in the SDK. -/
structure TaskDefinition where
  taskDefinitionArn : Option String
  status : String
deriving DecidableEq, Repr

/-- `ecs.DescribeTaskDefinitionOutput`, restricted to the field the code reads. -/
structure DescribeTaskDefinitionOutput where
  taskDefinition : Option TaskDefinition
deriving DecidableEq, Repr

/-- `isTaskDefinitionActive`, with the `DescribeTaskDefinition` call outcome
as argument. The Go condition
`out.TaskDefinition != nil && out.TaskDefinition.TaskDefinitionArn != nil && *... == arn`
becomes nested matches. -/
def isTaskDefinitionActive (arn : String)
    (query : Except AwsError DescribeTaskDefinitionOutput) : OracleVerdict :=
  match query with
  | .error e => ⟨true, some (.wrap "describe task definition" e), []⟩
  | .ok out =>
    match out.taskDefinition with
    | some td =>
      match td.taskDefinitionArn with
      | some tdArn =>
        if tdArn = arn then
          if td.status = taskDefinitionStatusActive then ⟨true, none, []⟩
          else ⟨false, none, []⟩
        else ⟨false, none, []⟩
      | none => ⟨false, none, []⟩
    | none => ⟨false, none, []⟩

/-- A Go `map[string]string` as an association list; `attrLookup` is Go map
indexing, returning the zero value `""` when the key is absent. -/
def attrLookup (m : List (String × String)) (k : String) : String :=
  match m.find? (fun p => p.1 = k) with
  | some p => p.2
  | none => ""

/-- `sns.GetSubscriptionAttributesOutput`: the `Attributes` map may be a nil
map (`none`). The output pointer itself may also be nil, modelled by wrapping
in `Option` at the call site. -/
structure GetSubscriptionAttributesOutput where
  attributes : Option (List (String × String))
deriving DecidableEq, Repr

/-- `isSnsSubscriptionActive`, with the `GetSubscriptionAttributes` call
outcome as argument (`Option` for the possibly-nil output pointer). -/
def isSnsSubscriptionActive
    (query : Except AwsError (Option GetSubscriptionAttributesOutput)) :
    OracleVerdict :=
  match query with
  | .error e =>
    if isSnsNotFoundErr e then ⟨false, none, []⟩
    else ⟨true, some (.wrap "get subscription attributes" e), []⟩
  | .ok none => ⟨false, none, []⟩
  | .ok (some out) =>
    match out.attributes with
    | none => ⟨false, none, []⟩
    | some attrs =>
      if attrLookup attrs "TopicArn" ≠ "" then ⟨true, none, []⟩
      else ⟨false, none, []⟩

/-- `sqs.GetQueueAttributesOutput`: the `Attributes` map may be a nil map. -/
structure GetQueueAttributesOutput where
  attributes : Option (List (String × String))
deriving DecidableEq, Repr

/-- `isSqsQueueActive`, with the `GetQueueAttributes` call outcome as
argument. Faithful to the source: the error classification checks the SNS
type `*snstypes.NotFoundException` (not the SQS not-found type), and the
wrapped error message is `"get subscription attributes"`. -/
def isSqsQueueActive
    (query : Except AwsError (Option GetQueueAttributesOutput)) :
    OracleVerdict :=
  match query with
  | .error e =>
    if isSnsNotFoundErr e then ⟨false, none, []⟩
    else ⟨true, some (.wrap "get subscription attributes" e), []⟩
  | .ok none => ⟨false, none, []⟩
  | .ok (some out) =>
    match out.attributes with
    | none => ⟨false, none, []⟩
    | some attrs =>
      if attrLookup attrs "QueueArn" ≠ "" then ⟨true, none, []⟩
      else ⟨false, none, []⟩

/-- `ec2types.Reservation`; the code only ever takes the length of the
reservation list, no field is read. -/
structure Reservation where
  reservationId : Option String
deriving DecidableEq, Repr

/-- `ec2.DescribeInstancesOutput`, restricted to the field the code reads. -/
structure DescribeInstancesOutput where
  reservations : List Reservation
deriving DecidableEq, Repr

/-- `isEc2InstanceActive`, with the `DescribeInstances` call outcome as
argument. The Go `switch len(out.Reservations)` with cases 0, 1, default. -/
def isEc2InstanceActive
    (query : Except AwsError DescribeInstancesOutput) : OracleVerdict :=
  match query with
  | .error e => ⟨true, some (.wrap "describe ec2 instances" e), []⟩
  | .ok out =>
    if out.reservations.length = 0 then ⟨false, none, []⟩
    else if out.reservations.length = 1 then ⟨true, none, []⟩
    else
      ⟨true, none,
        ["unexpected number of instance reservations found: " ++
          toString out.reservations.length]⟩

/-- `stopEcsTask`: the `StopTask` output value is discarded by the code
(`_, err :=`), so the success payload is `Unit`. -/
def stopEcsTask (call : Except AwsError Unit) : Option GoError :=
  match call with
  | .error e => some (.wrap "stop task" e)
  | .ok _ => none

/-- `deregisterEcsTaskDefinition`: output discarded, error wrapped. -/
def deregisterEcsTaskDefinition (call : Except AwsError Unit) : Option GoError :=
  match call with
  | .error e => some (.wrap "deregister task definition" e)
  | .ok _ => none

/-- `unsubscribeSqsQueue`: output discarded, error wrapped. -/
def unsubscribeSqsQueue (call : Except AwsError Unit) : Option GoError :=
  match call with
  | .error e => some (.wrap "unsubscribe from request topic" e)
  | .ok _ => none

/-- `deleteSqsQueue`: output discarded, error wrapped. -/
def deleteSqsQueue (call : Except AwsError Unit) : Option GoError :=
  match call with
  | .error e => some (.wrap "delete queue" e)
  | .ok _ => none

/-- The Go loop condition `ta.TaskArn != nil && *ta.TaskArn == taskArn`. -/
def taskMatches (arn : String) (t : ECSTask) : Bool :=
  match t.taskArn with
  | some a => a = arn
  | none => false

/-- Skipping step of the Go `for` loop: an entry whose `TaskArn` is nil or
different from the queried arn does not affect the result. -/
lemma isTaskActiveLoop_skip (arn : String) (t : ECSTask) (ts : List ECSTask)
    (h : taskMatches arn t = false) :
    isTaskActiveLoop arn (t :: ts) = isTaskActiveLoop arn ts := by
  unfold taskMatches at h
  cases ht : t.taskArn with
  | none => simp [isTaskActiveLoop, ht]
  | some a =>
    rw [ht] at h
    have ha : ¬ a = arn := by simpa using h
    simp [isTaskActiveLoop, ht, ha]

/-- The task-iteration loop never produces an error: every exit of the Go
`for` loop returns a nil error. -/
lemma isTaskActiveLoop_err_none (arn : String) (ts : List ECSTask) :
    (isTaskActiveLoop arn ts).err = none := by
  induction ts with
  | nil => rfl
  | cons ta rest ih =>
    unfold isTaskActiveLoop
    cases h : ta.taskArn with
    | none => simpa using ih
    | some a =>
      by_cases ha : a = arn
      · cases hst : ta.lastStatus with
        | none => simp [ha, hst]
        | some st =>
          by_cases hterm : (st = "DEACTIVATING" || st = "STOPPING" ||
              st = "DEPROVISIONING" || st = "STOPPED" || st = "DELETED") = true
          · simp [ha, hst, hterm]
          · simp [ha, hst, hterm]
      · simpa [ha] using ih

/-- Every success path of `isTaskDefinitionActive` returns a nil error. -/
lemma isTaskDefinitionActive_ok_err_none (arn : String)
    (out : DescribeTaskDefinitionOutput) :
    (isTaskDefinitionActive arn (.ok out)).err = none := by
  obtain ⟨td⟩ := out
  cases td with
  | none => rfl
  | some d =>
    obtain ⟨tdArn, st⟩ := d
    cases tdArn with
    | none => rfl
    | some a =>
      by_cases ha : a = arn <;>
        by_cases hst : st = taskDefinitionStatusActive <;>
        simp [isTaskDefinitionActive, ha, hst]

/-- Every success path of `isSnsSubscriptionActive` returns a nil error. -/
lemma isSnsSubscriptionActive_ok_err_none
    (q : Option GetSubscriptionAttributesOutput) :
    (isSnsSubscriptionActive (.ok q)).err = none := by
  rcases q with _ | ⟨_ | attrs⟩
  · rfl
  · rfl
  · by_cases h : attrLookup attrs "TopicArn" = "" <;>
      simp [isSnsSubscriptionActive, h]

/-- Every success path of `isSqsQueueActive` returns a nil error. -/
lemma isSqsQueueActive_ok_err_none (q : Option GetQueueAttributesOutput) :
    (isSqsQueueActive (.ok q)).err = none := by
  rcases q with _ | ⟨_ | attrs⟩
  · rfl
  · rfl
  · by_cases h : attrLookup attrs "QueueArn" = "" <;>
      simp [isSqsQueueActive, h]

/-- Every success path of `isEc2InstanceActive` returns a nil error. -/
lemma isEc2InstanceActive_ok_err_none (out : DescribeInstancesOutput) :
    (isEc2InstanceActive (.ok out)).err = none := by
  by_cases h0 : out.reservations.length = 0
  · simp [isEc2InstanceActive, h0]
  · by_cases h1 : out.reservations.length = 1 <;>
      simp [isEc2InstanceActive, h0, h1]

/-- C5: for a subscription query that fails with the provider's not-found
exception (`*snstypes.NotFoundException`), the subscription oracle returns
verdict inactive (false) with a nil error, not a propagated error. -/
theorem isSnsSubscriptionActive_notFound_inactive (m : String) :
    isSnsSubscriptionActive (.error (.snsNotFound m)) =
      ⟨false, none, []⟩ := rfl

/-- C10: for both the subscription and queue oracles, a provider call that
succeeds but yields a nil response object gives verdict inactive (false) and
a nil error — exactly the same result as a response with a nil (empty)
attribute map; no error is returned in any of these cases. -/
theorem nil_response_as_empty_attributes :
    isSnsSubscriptionActive (.ok none) = ⟨false, none, []⟩ ∧
    isSqsQueueActive (.ok none) = ⟨false, none, []⟩ ∧
    isSnsSubscriptionActive (.ok none) =
      isSnsSubscriptionActive (.ok (some ⟨none⟩)) ∧
    isSnsSubscriptionActive (.ok none) =
      isSnsSubscriptionActive (.ok (some ⟨some []⟩)) ∧
    isSqsQueueActive (.ok none) = isSqsQueueActive (.ok (some ⟨none⟩)) ∧
    isSqsQueueActive (.ok none) = isSqsQueueActive (.ok (some ⟨some []⟩)) :=
  ⟨rfl, rfl, rfl, by decide, rfl, by decide⟩

/-- C2 (code behaviour at the failing input): when `GetQueueAttributes` fails
with the SQS not-found error `*sqstypes.QueueDoesNotExist` — the provider
error indicating the queue does not exist — the queue oracle does NOT return
(inactive, nil): the classification in the code matches only the SNS
exception type, so the verdict is active (true) with a propagated error
(whose wrapping message is the copy-pasted "get subscription attributes"). -/
theorem isSqsQueueActive_queueDoesNotExist_behaviour :
    isSqsQueueActive
        (.error (.sqsQueueDoesNotExist "The specified queue does not exist.")) =
      ⟨true,
        some (.wrap "get subscription attributes"
          (.sqsQueueDoesNotExist "The specified queue does not exist.")),
        []⟩ := rfl

/-- C8: each teardown-executor operation returns a non-nil error exactly when
the single underlying provider mutation call fails, and nil exactly when it
succeeds; no mutation failure is swallowed. -/
theorem executor_error_propagation :
    (∀ call : Except AwsError Unit,
      stopEcsTask call = none ↔ call = .ok ()) ∧
    (∀ call : Except AwsError Unit,
      deregisterEcsTaskDefinition call = none ↔ call = .ok ()) ∧
    (∀ call : Except AwsError Unit,
      unsubscribeSqsQueue call = none ↔ call = .ok ()) ∧
    (∀ call : Except AwsError Unit,
      deleteSqsQueue call = none ↔ call = .ok ()) := by
  refine ⟨?_, ?_, ?_, ?_⟩ <;>
    rintro (e | u) <;>
    simp [stopEcsTask, deregisterEcsTaskDefinition, unsubscribeSqsQueue,
      deleteSqsQueue]

/-- C3: for a successful compute-task query returning an entry whose ARN
equals the queried task ARN with a readable status, the verdict is inactive
(false) exactly when that status is one of DEACTIVATING, STOPPING,
DEPROVISIONING, STOPPED, DELETED — and active (true) for every other status —
always with a nil error. -/
theorem isTaskActive_terminal_status (arn st : String) :
    ((isTaskActive arn (.ok ⟨[⟨some arn, some st⟩]⟩)).active = false ↔
      st = "DEACTIVATING" ∨ st = "STOPPING" ∨ st = "DEPROVISIONING" ∨
      st = "STOPPED" ∨ st = "DELETED") ∧
    (isTaskActive arn (.ok ⟨[⟨some arn, some st⟩]⟩)).err = none := by
  refine ⟨?_, isTaskActiveLoop_err_none arn _⟩
  by_cases h : st = "DEACTIVATING" ∨ st = "STOPPING" ∨
      st = "DEPROVISIONING" ∨ st = "STOPPED" ∨ st = "DELETED"
  · rcases h with h | h | h | h | h <;> subst h <;>
      simp [isTaskActive, isTaskActiveLoop]
  · push_neg at h
    obtain ⟨h1, h2, h3, h4, h5⟩ := h
    simp [isTaskActive, isTaskActiveLoop, h1, h2, h3, h4, h5]

/-- C4: for a successful task-definition query, the verdict is active (true)
exactly when the response contains a definition whose ARN equals the queried
ref and whose status enum is the ACTIVE value; absence, ref mismatch, or any
other status yields inactive (false); the error is nil in every success
case. -/
theorem isTaskDefinitionActive_iff (ref : String)
    (out : DescribeTaskDefinitionOutput) :
    ((isTaskDefinitionActive ref (.ok out)).active = true ↔
      ∃ td, out.taskDefinition = some td ∧ td.taskDefinitionArn = some ref ∧
        td.status = taskDefinitionStatusActive) ∧
    (isTaskDefinitionActive ref (.ok out)).err = none := by
  obtain ⟨td⟩ := out
  cases td with
  | none => simp [isTaskDefinitionActive]
  | some d =>
    obtain ⟨tdArn, st⟩ := d
    cases tdArn with
    | none => simp [isTaskDefinitionActive]
    | some a =>
      by_cases ha : a = ref
      · by_cases hst : st = taskDefinitionStatusActive <;>
          simp [isTaskDefinitionActive, ha, hst]
      · simp [isTaskDefinitionActive, ha]

/-- C6: for a successful VM-instance query, the verdict is inactive (false)
with zero reservation groups, active (true) with no error and no warning with
exactly one, and active (true) with no error plus a warning signal with two
or more. -/
theorem isEc2InstanceActive_reservation_count (out : DescribeInstancesOutput) :
    (out.reservations.length = 0 →
      isEc2InstanceActive (.ok out) = ⟨false, none, []⟩) ∧
    (out.reservations.length = 1 →
      isEc2InstanceActive (.ok out) = ⟨true, none, []⟩) ∧
    (2 ≤ out.reservations.length →
      (isEc2InstanceActive (.ok out)).active = true ∧
      (isEc2InstanceActive (.ok out)).err = none ∧
      (isEc2InstanceActive (.ok out)).warnings ≠ []) := by
  refine ⟨fun h0 => ?_, fun h1 => ?_, fun h2 => ?_⟩
  · simp [isEc2InstanceActive, h0]
  · simp [isEc2InstanceActive, h1]
  · have hne0 : out.reservations.length ≠ 0 := by omega
    have hne1 : out.reservations.length ≠ 1 := by omega
    simp [isEc2InstanceActive, hne0, hne1]

/-- Witness for C6: concrete responses with zero, one and two reservation
groups evaluated through the theorem. -/
theorem isEc2InstanceActive_reservation_count_witness :
    isEc2InstanceActive (.ok ⟨[]⟩) = ⟨false, none, []⟩ ∧
    isEc2InstanceActive (.ok ⟨[⟨none⟩]⟩) = ⟨true, none, []⟩ ∧
    ((isEc2InstanceActive (.ok ⟨[⟨none⟩, ⟨none⟩]⟩)).active = true ∧
      (isEc2InstanceActive (.ok ⟨[⟨none⟩, ⟨none⟩]⟩)).err = none ∧
      (isEc2InstanceActive (.ok ⟨[⟨none⟩, ⟨none⟩]⟩)).warnings ≠ []) :=
  ⟨(isEc2InstanceActive_reservation_count ⟨[]⟩).1 (by decide),
   (isEc2InstanceActive_reservation_count ⟨[⟨none⟩]⟩).2.1 (by decide),
   (isEc2InstanceActive_reservation_count ⟨[⟨none⟩, ⟨none⟩]⟩).2.2 (by decide)⟩

/-- C7: for a subscription or queue query that succeeds but returns an empty
or missing attribute map — more generally, any response without a non-empty
TopicArn / QueueArn entry — the respective oracle returns verdict inactive
(false) with a nil error. -/
theorem attr_map_without_arn_inactive :
    (∀ q : Option GetSubscriptionAttributesOutput,
      (∀ o, q = some o → ∀ attrs, o.attributes = some attrs →
        attrLookup attrs "TopicArn" = "") →
      isSnsSubscriptionActive (.ok q) = ⟨false, none, []⟩) ∧
    (∀ q : Option GetQueueAttributesOutput,
      (∀ o, q = some o → ∀ attrs, o.attributes = some attrs →
        attrLookup attrs "QueueArn" = "") →
      isSqsQueueActive (.ok q) = ⟨false, none, []⟩) := by
  constructor
  · rintro (_ | ⟨_ | attrs⟩) h
    · rfl
    · rfl
    · have := h _ rfl attrs rfl
      simp [isSnsSubscriptionActive, this]
  · rintro (_ | ⟨_ | attrs⟩) h
    · rfl
    · rfl
    · have := h _ rfl attrs rfl
      simp [isSqsQueueActive, this]

/-- Witness for C7: a subscription response with an empty attribute map and a
queue response whose map lacks a QueueArn entry, evaluated through the
theorem. -/
theorem attr_map_without_arn_inactive_witness :
    isSnsSubscriptionActive (.ok (some ⟨some []⟩)) = ⟨false, none, []⟩ ∧
    isSqsQueueActive (.ok (some ⟨some [("Policy", "p")]⟩)) =
      ⟨false, none, []⟩ :=
  ⟨attr_map_without_arn_inactive.1 (some ⟨some []⟩)
      (by intro o ho attrs hattrs; cases ho; cases hattrs; rfl),
   attr_map_without_arn_inactive.2 (some ⟨some [("Policy", "p")]⟩)
      (by intro o ho attrs hattrs; cases ho; cases hattrs; rfl)⟩

/-- C1: for every liveness-oracle function, whenever the underlying provider
query returns an error that the code does not classify as not-found, the
function returns the fail-safe verdict active (true) together with a non-nil
wrapped error; and no oracle ever returns inactive (false) alongside a
non-nil error, on any input whatsoever. (The task, task-definition and
VM-instance oracles perform no not-found classification, so there every
query error yields the fail-safe result.) -/
theorem oracle_failsafe_active_on_error :
    (∀ (arn : String) (e : AwsError),
      isTaskActive arn (.error e) =
        ⟨true, some (.wrap "describe tasks" e), []⟩) ∧
    (∀ (arn : String) (e : AwsError),
      isTaskDefinitionActive arn (.error e) =
        ⟨true, some (.wrap "describe task definition" e), []⟩) ∧
    (∀ e : AwsError, isSnsNotFoundErr e = false →
      isSnsSubscriptionActive (.error e) =
        ⟨true, some (.wrap "get subscription attributes" e), []⟩) ∧
    (∀ e : AwsError, isSnsNotFoundErr e = false →
      isSqsQueueActive (.error e) =
        ⟨true, some (.wrap "get subscription attributes" e), []⟩) ∧
    (∀ e : AwsError,
      isEc2InstanceActive (.error e) =
        ⟨true, some (.wrap "describe ec2 instances" e), []⟩) ∧
    (∀ (arn : String) (q : Except AwsError DescribeTasksOutput),
      (isTaskActive arn q).err ≠ none → (isTaskActive arn q).active = true) ∧
    (∀ (arn : String) (q : Except AwsError DescribeTaskDefinitionOutput),
      (isTaskDefinitionActive arn q).err ≠ none →
        (isTaskDefinitionActive arn q).active = true) ∧
    (∀ q : Except AwsError (Option GetSubscriptionAttributesOutput),
      (isSnsSubscriptionActive q).err ≠ none →
        (isSnsSubscriptionActive q).active = true) ∧
    (∀ q : Except AwsError (Option GetQueueAttributesOutput),
      (isSqsQueueActive q).err ≠ none → (isSqsQueueActive q).active = true) ∧
    (∀ q : Except AwsError DescribeInstancesOutput,
      (isEc2InstanceActive q).err ≠ none →
        (isEc2InstanceActive q).active = true) := by
  refine ⟨fun arn e => rfl, fun arn e => rfl,
    fun e he => by simp [isSnsSubscriptionActive, he],
    fun e he => by simp [isSqsQueueActive, he],
    fun e => rfl, ?_, ?_, ?_, ?_, ?_⟩
  · rintro arn (e | out) h
    · rfl
    · exact absurd (isTaskActiveLoop_err_none arn out.tasks) h
  · rintro arn (e | out) h
    · rfl
    · exact absurd (isTaskDefinitionActive_ok_err_none arn out) h
  · rintro (e | q) h
    · by_cases he : isSnsNotFoundErr e = true
      · simp [isSnsSubscriptionActive, he] at h
      · simp [isSnsSubscriptionActive, he]
    · exact absurd (isSnsSubscriptionActive_ok_err_none q) h
  · rintro (e | q) h
    · by_cases he : isSnsNotFoundErr e = true
      · simp [isSqsQueueActive, he] at h
      · simp [isSqsQueueActive, he]
    · exact absurd (isSqsQueueActive_ok_err_none q) h
  · rintro (e | out) h
    · rfl
    · exact absurd (isEc2InstanceActive_ok_err_none out) h

/-- Witness for C1: concrete non-not-found errors (a non-API timeout and a
throttling API error) evaluated through the theorem, for each oracle. -/
theorem oracle_failsafe_active_on_error_witness :
    isSnsSubscriptionActive (.error (.nonAPI "timeout")) =
      ⟨true, some (.wrap "get subscription attributes" (.nonAPI "timeout")),
        []⟩ ∧
    isSqsQueueActive (.error (.otherAPI "Throttling" "rate exceeded")) =
      ⟨true, some (.wrap "get subscription attributes"
        (.otherAPI "Throttling" "rate exceeded")), []⟩ ∧
    (isTaskActive "t" (.error (.nonAPI "timeout"))).active = true ∧
    (isTaskDefinitionActive "t" (.error (.nonAPI "timeout"))).active = true ∧
    (isSnsSubscriptionActive (.error (.nonAPI "timeout"))).active = true ∧
    (isSqsQueueActive (.error (.nonAPI "timeout"))).active = true ∧
    (isEc2InstanceActive (.error (.nonAPI "timeout"))).active = true :=
  ⟨oracle_failsafe_active_on_error.2.2.1 _ rfl,
   oracle_failsafe_active_on_error.2.2.2.1 _ rfl,
   oracle_failsafe_active_on_error.2.2.2.2.2.1 "t" _ (by decide),
   oracle_failsafe_active_on_error.2.2.2.2.2.2.1 "t" _ (by decide),
   oracle_failsafe_active_on_error.2.2.2.2.2.2.2.1 _ (by decide),
   oracle_failsafe_active_on_error.2.2.2.2.2.2.2.2.1 _ (by decide),
   oracle_failsafe_active_on_error.2.2.2.2.2.2.2.2.2 _ (by decide)⟩

/-- C9: the compute-task verdict is decided by the first returned entry whose
ARN equals the queried task ARN: (a) if no entry matches, the verdict is
inactive with a nil error; (b) an entry with a different or missing ARN is
skipped without affecting the result; (c) once an entry matches, the entries
after it are ignored; (d) a matching entry with an unreadable (missing)
status yields active with a nil error (and the warning log line). -/
theorem isTaskActive_first_match_semantics :
    (∀ (arn : String) (ts : List ECSTask),
      (∀ t ∈ ts, taskMatches arn t = false) →
      isTaskActive arn (.ok ⟨ts⟩) = ⟨false, none, []⟩) ∧
    (∀ (arn : String) (t : ECSTask) (ts : List ECSTask),
      taskMatches arn t = false →
      isTaskActive arn (.ok ⟨t :: ts⟩) = isTaskActive arn (.ok ⟨ts⟩)) ∧
    (∀ (arn : String) (t : ECSTask) (ts ts' : List ECSTask),
      taskMatches arn t = true →
      isTaskActive arn (.ok ⟨t :: ts⟩) = isTaskActive arn (.ok ⟨t :: ts'⟩)) ∧
    (∀ (arn : String) (t : ECSTask) (ts : List ECSTask),
      taskMatches arn t = true → t.lastStatus = none →
      isTaskActive arn (.ok ⟨t :: ts⟩) =
        ⟨true, none, ["task found, but cannot read status"]⟩) := by
  refine ⟨?_, ?_, ?_, ?_⟩
  · intro arn ts
    induction ts with
    | nil => intro _; rfl
    | cons t rest ih =>
      intro h
      have ht : taskMatches arn t = false := h t (List.mem_cons_self t rest)
      show isTaskActiveLoop arn (t :: rest) = ⟨false, none, []⟩
      rw [isTaskActiveLoop_skip arn t rest ht]
      exact ih fun x hx => h x (List.mem_cons_of_mem t hx)
  · intro arn t ts h
    exact isTaskActiveLoop_skip arn t ts h
  · intro arn t ts ts' h
    unfold taskMatches at h
    cases ht : t.taskArn with
    | none => rw [ht] at h; exact absurd h (by simp)
    | some a =>
      rw [ht] at h
      have ha : a = arn := by simpa using h
      show isTaskActiveLoop arn (t :: ts) = isTaskActiveLoop arn (t :: ts')
      unfold isTaskActiveLoop
      simp [ht, ha]
  · intro arn t ts h hst
    unfold taskMatches at h
    cases ht : t.taskArn with
    | none => rw [ht] at h; exact absurd h (by simp)
    | some a =>
      rw [ht] at h
      have ha : a = arn := by simpa using h
      show isTaskActiveLoop arn (t :: ts) =
        ⟨true, none, ["task found, but cannot read status"]⟩
      unfold isTaskActiveLoop
      simp [ht, ha, hst]

/-- Witness for C9: concrete task lists — a non-matching entry, a skipped
nil-ARN entry, a second matching entry that is ignored, and a matching entry
with a nil status — evaluated through the theorem. -/
theorem isTaskActive_first_match_semantics_witness :
    isTaskActive "a" (.ok ⟨[⟨some "b", some "RUNNING"⟩]⟩) =
      ⟨false, none, []⟩ ∧
    isTaskActive "a" (.ok ⟨[⟨none, some "RUNNING"⟩, ⟨some "a", some "STOPPED"⟩]⟩) =
      isTaskActive "a" (.ok ⟨[⟨some "a", some "STOPPED"⟩]⟩) ∧
    isTaskActive "a"
        (.ok ⟨[⟨some "a", some "STOPPED"⟩, ⟨some "a", some "RUNNING"⟩]⟩) =
      isTaskActive "a" (.ok ⟨[⟨some "a", some "STOPPED"⟩]⟩) ∧
    isTaskActive "a" (.ok ⟨[⟨some "a", none⟩]⟩) =
      ⟨true, none, ["task found, but cannot read status"]⟩ :=
  ⟨isTaskActive_first_match_semantics.1 "a" _ (by decide),
   isTaskActive_first_match_semantics.2.1 "a" _ _ (by decide),
   isTaskActive_first_match_semantics.2.2.1 "a" ⟨some "a", some "STOPPED"⟩
     [⟨some "a", some "RUNNING"⟩] [] (by decide),
   isTaskActive_first_match_semantics.2.2.2 "a" _ _ (by decide) rfl⟩

end Thunderdome
